import Mathlib

/-!
Verification of the emission-line fitting and diagnostic-classification core of
the galaxy visualization application (modules `utils/line_fitting.py`,
`utils/bpt_diagrams.py`, `utils/galaxy_properties.py`, `utils/spectral_utils.py`).

Modelling conventions:
- Finite floating-point data (spectrum samples, fitted parameter values) is
  embedded as exact rationals `ℚ`; quantities produced by transcendental
  operations of the code (`np.sqrt`, `np.log10`, `π`) live in `ℝ`.
- The external nonlinear solver (`lmfit`'s `model.fit`) is abstracted as an
  oracle argument of type `Option FitParams`: `none` models every failure mode
  the source wraps in its `try/except` (non-convergence raises `ValueError`
  inside the `try`, solver exceptions are caught by the `except` clause), and
  `some p` models a converged fit whose parameter and best-fit values are `p`.
- Python dictionaries are embedded as association lists with `List.lookup`.
-/

namespace GalaxyViz

/-! ### Numeric helpers mirroring numpy reductions used by the source -/

/-- Arithmetic mean of a list of rationals (`np.mean`); `0` on the empty list
(the source never applies it to an empty window). -/
def meanQ (l : List ℚ) : ℚ := l.sum / l.length

/-- Population variance of a list of rationals (`np.std` squared). -/
def varQ (l : List ℚ) : ℚ :=
  (l.map (fun x => (x - meanQ l) ^ 2)).sum / l.length

/-- Insert into a sorted list, keeping it sorted (ascending). -/
def insertSorted (x : ℚ) : List ℚ → List ℚ
  | [] => [x]
  | y :: ys => if x ≤ y then x :: y :: ys else y :: insertSorted x ys

/-- Insertion sort, ascending. -/
def sortQ (l : List ℚ) : List ℚ := l.foldr insertSorted []

/-- Median in the sense of `np.median`: the middle element of the sorted list
for odd length, the average of the two middle elements for even length. -/
def median (l : List ℚ) : ℚ :=
  let s := sortQ l
  let n := s.length
  if n % 2 = 1 then s.getD (n / 2) 0
  else (s.getD (n / 2 - 1) 0 + s.getD (n / 2) 0) / 2

/-! ### BPT diagram classification (`utils/bpt_diagrams.py`) -/

/-- Kauffmann et al. (2003) star-forming/AGN demarcation line
(`bpt_diagrams.kauffmann03_line`). -/
def kauffmann03_line (nii_ha : ℚ) : ℚ := 0.61 / (nii_ha - 0.05) + 1.3

/-- Kewley et al. (2001) theoretical maximum starburst line
(`bpt_diagrams.kewley01_line`). -/
def kewley01_line (nii_ha : ℚ) : ℚ := 0.61 / (nii_ha - 0.47) + 1.19

/-- BPT classification of one object (`bpt_diagrams.classify_object_bpt`):
first-match-wins cascade of the Kauffmann, Kewley and Schawinski boundaries,
all evaluated at the same abscissa. -/
def classify_object_bpt (nii_ha oiii_hb : ℚ) : String :=
  let kauffmann_val := kauffmann03_line nii_ha
  let kewley_val := kewley01_line nii_ha
  let liner_line := 1.89 * nii_ha + 0.76
  if oiii_hb < kauffmann_val then "Star-forming"
  else if oiii_hb < kewley_val then "Composite"
  else if oiii_hb > liner_line then "AGN (Seyfert)"
  else "LINER"

/-- The four BPT classes named by the specification. -/
inductive Classification
  | StarForming
  | Composite
  | AGN_Seyfert
  | LINER
deriving DecidableEq

/-- Modelled from the spec: the decision cascade of §4.3 — StarForming if
`y < 0.61/(x − 0.05) + 1.3`; otherwise Composite if `y < 0.61/(x − 0.47) + 1.19`;
otherwise AGN (Seyfert) if `y > 1.89x + 0.76`; otherwise LINER. -/
def bpt_spec (x y : ℚ) : Classification :=
  if y < 0.61 / (x - 0.05) + 1.3 then .StarForming
  else if y < 0.61 / (x - 0.47) + 1.19 then .Composite
  else if y > 1.89 * x + 0.76 then .AGN_Seyfert
  else .LINER

/-- The label string the source code uses for each BPT class. -/
def bptLabel : Classification → String
  | .StarForming => "Star-forming"
  | .Composite => "Composite"
  | .AGN_Seyfert => "AGN (Seyfert)"
  | .LINER => "LINER"

/-- C1: for every pair of finite ratio values with `x ≠ 0.05` and `x ≠ 0.47`,
`classify_object_bpt` returns exactly the label selected by the specification's
four-way precedence (StarForming, then Composite, then AGN (Seyfert), then
LINER), with all three boundary curves evaluated at the same `x`. -/
theorem C1_classification_precedence (x y : ℚ) (hx1 : x ≠ 0.05) (hx2 : x ≠ 0.47) :
    classify_object_bpt x y = bptLabel (bpt_spec x y) := by
  simp only [classify_object_bpt, bpt_spec, kauffmann03_line, kewley01_line, bptLabel]
  split_ifs <;> rfl

/-- C1 witness: at `x = -1`, `y = 0` the hypotheses hold and the classifier
agrees with the specification cascade (both give Star-forming). -/
theorem C1_classification_precedence_witness :
    ((-1 : ℚ) ≠ 0.05 ∧ (-1 : ℚ) ≠ 0.47) ∧
      classify_object_bpt (-1) 0 = bptLabel (bpt_spec (-1) 0) ∧
      classify_object_bpt (-1) 0 = "Star-forming" := by
  refine ⟨⟨by norm_num, by norm_num⟩,
    C1_classification_precedence (-1) 0 (by norm_num) (by norm_num), ?_⟩
  rw [classify_object_bpt, kauffmann03_line]
  norm_num

/-! ### Single-line fitter (`utils/line_fitting.py`) -/

/-- Result of one emission-line fit (`line_fitting.LineResult` dataclass), in
source field order. Numeric fields are real-valued because the successful-fit
branch derives some of them with transcendental operations. -/
structure LineResult where
  line_name : String
  center : ℝ
  center_err : ℝ
  amplitude : ℝ
  amplitude_err : ℝ
  sigma : ℝ
  sigma_err : ℝ
  flux : ℝ
  flux_err : ℝ
  ew : ℝ
  ew_err : ℝ
  snr : ℝ
  velocity : ℝ
  velocity_err : ℝ
  continuum : ℝ
  success : Bool

/-- Output of the external nonlinear solver (an `lmfit` fit result): converged
parameter values, their standard errors (`stderr`, reported as `None` by lmfit
when unavailable), and the best-fit model curve over the fit window. -/
structure FitParams where
  center : ℚ
  center_err : Option ℚ
  amplitude : ℚ
  amplitude_err : Option ℚ
  sigma : ℚ
  sigma_err : Option ℚ
  slope : ℚ
  intercept : ℚ
  best_fit : List ℚ

/-- Sample selection of the fitter (source:
`mask = (wavelength > obs - window) & (wavelength < obs + window)`); both
comparisons are strict. Returns the selected (wavelength, flux) pairs. -/
def window_select (obs window : ℚ) (wavelength flux : List ℚ) : List (ℚ × ℚ) :=
  (wavelength.zip flux).filter fun wf => obs - window < wf.1 ∧ wf.1 < obs + window

/-- Modelled from the spec: the sample selection as claim C2 states it,
wavelength in the closed interval `[obs - window, obs + window]`. -/
def window_select_spec (obs window : ℚ) (wavelength flux : List ℚ) : List (ℚ × ℚ) :=
  (wavelength.zip flux).filter fun wf => obs - window ≤ wf.1 ∧ wf.1 ≤ obs + window

/-- Fit weights from inverse variance (source: `weights = sqrt(ivar_fit)` with
non-finite entries and zeros floored to `1e-10`, all ones when `ivar` is
`None`). `Real.sqrt` of a negative rational is `0` here and is floored exactly
like the NaN it produces in the source. The weights are consumed by the
external solver, which the embedding abstracts as the `solver` oracle. -/
noncomputable def fit_weights (ivar : Option (List ℚ)) (flux_fit : List ℚ) : List ℝ :=
  match ivar with
  | some ivar_fit =>
      ivar_fit.map fun v => if Real.sqrt (v : ℝ) = 0 then 1e-10 else Real.sqrt (v : ℝ)
  | none => flux_fit.map fun _ => 1

/-- The hard parameter bounds the source installs before fitting:
`cont_slope ∈ [-1e-2, 1e-2]`, `cont_intercept ≥ 0`, `line_center ∈ obs ± 10`,
`line_amplitude ≥ 0`, `line_sigma ∈ [0.5, 15]`. A bounded lmfit solve returns
parameter values inside their bounds; this predicate states that contract for
the solver oracle. -/
def param_bounds (obs_wavelength : ℚ) (p : FitParams) : Prop :=
  -1e-2 ≤ p.slope ∧ p.slope ≤ 1e-2 ∧ 0 ≤ p.intercept ∧
    obs_wavelength - 10 ≤ p.center ∧ p.center ≤ obs_wavelength + 10 ∧
    0 ≤ p.amplitude ∧ 0.5 ≤ p.sigma ∧ p.sigma ≤ 15

instance (obs : ℚ) (p : FitParams) : Decidable (param_bounds obs p) := by
  unfold param_bounds; infer_instance

/-- The deterministic failure result returned when fewer than 5 samples fall in
the fit window: center is the expected observed wavelength, every other numeric
field zero, `success = false`. -/
def emptyWindowResult (line_name : String) (obs_wavelength : ℚ) : LineResult :=
  { line_name := line_name, center := (obs_wavelength : ℝ), center_err := 0,
    amplitude := 0, amplitude_err := 0, sigma := 0, sigma_err := 0, flux := 0,
    flux_err := 0, ew := 0, ew_err := 0, snr := 0, velocity := 0,
    velocity_err := 0, continuum := 0, success := false }

/-- The result built in the fitter's `except` branch: like the empty-window
result but with continuum set to the median flux of the window samples (`0` if
the window were empty, per the source's guard). -/
noncomputable def solverFailResult (line_name : String) (obs_wavelength : ℚ)
    (flux_fit : List ℚ) : LineResult :=
  { line_name := line_name, center := (obs_wavelength : ℝ), center_err := 0,
    amplitude := 0, amplitude_err := 0, sigma := 0, sigma_err := 0, flux := 0,
    flux_err := 0, ew := 0, ew_err := 0, snr := 0, velocity := 0,
    velocity_err := 0,
    continuum := if 0 < flux_fit.length then ((median flux_fit : ℚ) : ℝ) else 0,
    success := false }

/-- Single-line fitter (`line_fitting.fit_emission_line_lmfit`). The external
call `model.fit(...)` together with the subsequent `result.success` check is
abstracted by the `solver` oracle: `none` is any outcome the source routes to
its `except` branch (an exception from the solver, or non-convergence, which
the source re-raises as `ValueError` inside the `try`); `some p` is a converged
fit with parameters and best-fit curve `p`. Everything else follows the source
line by line: window selection, the under-populated-window early return, and
the derived quantities of the success branch. -/
noncomputable def fit_emission_line_lmfit (wavelength flux : List ℚ)
    (ivar : Option (List ℚ)) (rest_wavelength : ℚ) (line_name : String)
    (z window : ℚ) (model_type : String) (solver : Option FitParams) : LineResult :=
  let obs_wavelength := rest_wavelength * (1 + z)
  let selected := window_select obs_wavelength window wavelength flux
  if selected.length < 5 then
    emptyWindowResult line_name obs_wavelength
  else
    let flux_fit := selected.map Prod.snd
    match solver with
    | none => solverFailResult line_name obs_wavelength flux_fit
    | some p =>
      let center := p.center
      let center_err := p.center_err.getD 0
      let amplitude := p.amplitude
      let amplitude_err := p.amplitude_err.getD 0
      let sigma := p.sigma
      let sigma_err := p.sigma_err.getD 0
      let continuum := p.intercept + p.slope * center
      let flux_integrated : ℝ :=
        if model_type = "gaussian" then
          ((amplitude * sigma : ℚ) : ℝ) * Real.sqrt (2 * Real.pi)
        else if model_type = "lorentzian" then
          ((amplitude * sigma : ℚ) : ℝ) * Real.pi
        else ((amplitude * sigma : ℚ) : ℝ) * Real.sqrt (2 * Real.pi)
      let flux_err : ℝ :=
        if 0 < amplitude ∧ 0 < sigma then
          flux_integrated *
            Real.sqrt (((amplitude_err / amplitude : ℚ) : ℝ) ^ 2 +
              ((sigma_err / sigma : ℚ) : ℝ) ^ 2)
        else 0
      let ew : ℝ :=
        if 0 < continuum then -flux_integrated / ((continuum : ℚ) : ℝ) else 0
      let ew_err : ℝ :=
        if 0 < flux_integrated then |ew| * (flux_err / flux_integrated) else 0
      let residuals := (flux_fit.zip p.best_fit).map fun ab => ab.1 - ab.2
      let std_residuals : ℝ := Real.sqrt ((varQ residuals : ℚ) : ℝ)
      let snr : ℝ :=
        if 0 < std_residuals then ((amplitude : ℚ) : ℝ) / std_residuals else 0
      let c : ℚ := 299792.458
      let velocity := c * (center - obs_wavelength) / obs_wavelength
      let velocity_err := c * center_err / obs_wavelength
      { line_name := line_name, center := (center : ℝ),
        center_err := (center_err : ℝ), amplitude := (amplitude : ℝ),
        amplitude_err := (amplitude_err : ℝ), sigma := (sigma : ℝ),
        sigma_err := (sigma_err : ℝ), flux := flux_integrated,
        flux_err := flux_err, ew := ew, ew_err := ew_err, snr := snr,
        velocity := (velocity : ℝ), velocity_err := (velocity_err : ℝ),
        continuum := (continuum : ℝ), success := true }

/-- A benign converged solver outcome, inside every bound the source installs;
used by concrete instantiations. -/
def pGood : FitParams :=
  { center := 100, center_err := some 0.1, amplitude := 2,
    amplitude_err := some 0.1, sigma := 3, sigma_err := some 0.1,
    slope := 0, intercept := 1, best_fit := [1, 1, 1, 1, 1] }

/-- C2 counterexample: with `rest = 100`, `z = 0`, `window = 20` and a sample
lying exactly at `obs - window = 80`, the code's strict-inequality selection
keeps 4 samples while the claim's closed interval holds 5, and the fitter
returns the `success = false` under-populated-window result even though the
solver would have converged — so the selection is not the closed interval
`[obs - window, obs + window]`. -/
theorem C2_closed_window_counterexample :
    (window_select (100 * (1 + 0)) 20 [80, 90, 95, 100, 105] [1, 1, 1, 1, 1]).length = 4 ∧
      (window_select_spec (100 * (1 + 0)) 20 [80, 90, 95, 100, 105] [1, 1, 1, 1, 1]).length = 5 ∧
      (fit_emission_line_lmfit [80, 90, 95, 100, 105] [1, 1, 1, 1, 1] none 100 "Halpha"
          0 20 "gaussian" (some pGood)).success = false := by
  refine ⟨?_, ?_, ?_⟩
  · norm_num [window_select, List.zip, List.filter]
  · norm_num [window_select_spec, List.zip, List.filter]
  · norm_num [fit_emission_line_lmfit, window_select, emptyWindowResult,
      List.zip, List.filter]

/-- C2 (amended): the fitter selects the samples with wavelength strictly
inside the open interval `(obs - window, obs + window)` where
`obs = rest * (1 + z)`, and when fewer than 5 samples fall in that window it
returns, without raising, the result with `success = false`, center `obs` and
every other numeric field zero. -/
theorem C2_underpopulated_window (wavelength flux : List ℚ)
    (ivar : Option (List ℚ)) (rest_wavelength : ℚ) (line_name : String)
    (z window : ℚ) (model_type : String) (solver : Option FitParams)
    (h : (window_select (rest_wavelength * (1 + z)) window wavelength flux).length < 5) :
    fit_emission_line_lmfit wavelength flux ivar rest_wavelength line_name z window
        model_type solver =
      emptyWindowResult line_name (rest_wavelength * (1 + z)) := by
  unfold fit_emission_line_lmfit
  rw [if_pos h]

/-- C2 witness: a three-sample spectrum under-populates the window and the
fitter returns the deterministic failure result. -/
theorem C2_underpopulated_window_witness :
    (window_select (100 * (1 + 0)) 20 [95, 100, 105] [1, 2, 3]).length < 5 ∧
      fit_emission_line_lmfit [95, 100, 105] [1, 2, 3] none 100 "Halpha" 0 20
          "gaussian" (some pGood) =
        emptyWindowResult "Halpha" (100 * (1 + 0)) := by
  have h : (window_select (100 * (1 + 0)) 20 [95, 100, 105] [1, 2, 3]).length < 5 := by
    norm_num [window_select, List.zip, List.filter]
  exact ⟨h, C2_underpopulated_window [95, 100, 105] [1, 2, 3] none 100 "Halpha" 0 20
    "gaussian" (some pGood) h⟩

/-- C3: whenever the external solver fails (abstracted as oracle outcome
`none`, covering non-convergence, singular covariance and raised exceptions)
on a properly populated window, the fitter returns — it does not propagate the
failure — a result with `success = false`, continuum equal to the median flux
of the window samples, and all derived numeric fields and their errors zero. -/
theorem C3_solver_failure_recovery (wavelength flux : List ℚ)
    (ivar : Option (List ℚ)) (rest_wavelength : ℚ) (line_name : String)
    (z window : ℚ) (model_type : String)
    (h : 5 ≤ (window_select (rest_wavelength * (1 + z)) window wavelength flux).length) :
    let r := fit_emission_line_lmfit wavelength flux ivar rest_wavelength line_name z
      window model_type none
    r = solverFailResult line_name (rest_wavelength * (1 + z))
        ((window_select (rest_wavelength * (1 + z)) window wavelength flux).map Prod.snd) ∧
      r.success = false ∧
      r.continuum = ((median ((window_select (rest_wavelength * (1 + z)) window
        wavelength flux).map Prod.snd) : ℚ) : ℝ) ∧
      r.amplitude = 0 ∧ r.amplitude_err = 0 ∧ r.sigma = 0 ∧ r.sigma_err = 0 ∧
      r.flux = 0 ∧ r.flux_err = 0 ∧ r.ew = 0 ∧ r.ew_err = 0 ∧ r.snr = 0 ∧
      r.velocity = 0 ∧ r.velocity_err = 0 := by
  have hlen : ¬ (window_select (rest_wavelength * (1 + z)) window wavelength
      flux).length < 5 := not_lt.mpr h
  have hpos : 0 < ((window_select (rest_wavelength * (1 + z)) window wavelength
      flux).map Prod.snd).length := by
    rw [List.length_map]; omega
  have hr : fit_emission_line_lmfit wavelength flux ivar rest_wavelength line_name z
      window model_type none =
      solverFailResult line_name (rest_wavelength * (1 + z))
        ((window_select (rest_wavelength * (1 + z)) window wavelength flux).map
          Prod.snd) := by
    unfold fit_emission_line_lmfit
    rw [if_neg hlen]
  have hcont : (solverFailResult line_name (rest_wavelength * (1 + z))
      ((window_select (rest_wavelength * (1 + z)) window wavelength flux).map
        Prod.snd)).continuum =
      ((median ((window_select (rest_wavelength * (1 + z)) window wavelength
        flux).map Prod.snd) : ℚ) : ℝ) := by
    simp only [solverFailResult]
    rw [if_pos hpos]
  refine ⟨hr, ?_, ?_, ?_, ?_, ?_, ?_, ?_, ?_, ?_, ?_, ?_, ?_, ?_⟩ <;> rw [hr] <;>
    first
      | exact hcont
      | simp [solverFailResult]

/-- C3 witness: a five-sample window with solver failure yields
`success = false` and continuum equal to the median flux (here `3`). -/
theorem C3_solver_failure_recovery_witness :
    5 ≤ (window_select (100 * (1 + 0)) 20 [98, 99, 100, 101, 102] [5, 1, 3, 2, 4]).length ∧
      (fit_emission_line_lmfit [98, 99, 100, 101, 102] [5, 1, 3, 2, 4] none 100
          "Halpha" 0 20 "gaussian" none).success = false ∧
      (fit_emission_line_lmfit [98, 99, 100, 101, 102] [5, 1, 3, 2, 4] none 100
          "Halpha" 0 20 "gaussian" none).continuum = ((3 : ℚ) : ℝ) := by
  have h : 5 ≤ (window_select (100 * (1 + 0)) 20 [98, 99, 100, 101, 102]
      [5, 1, 3, 2, 4]).length := by
    norm_num [window_select, List.zip, List.filter]
  obtain ⟨-, hs, hc, -⟩ := C3_solver_failure_recovery [98, 99, 100, 101, 102]
    [5, 1, 3, 2, 4] none 100 "Halpha" 0 20 "gaussian" h
  refine ⟨h, hs, ?_⟩
  rw [hc]
  norm_num [window_select, List.zip, List.filter, median, sortQ, insertSorted]

/-- C4: every fit the source reports with `success = true` carries parameter
values copied unchanged from a solver run constrained by the installed bounds,
so `amplitude ≥ 0` and `sigma ∈ [0.5, 15]` hold post-fit (the solver-side
bound contract is the `param_bounds` hypothesis). -/
theorem C4_postfit_bounds (wavelength flux : List ℚ) (ivar : Option (List ℚ))
    (rest_wavelength : ℚ) (line_name : String) (z window : ℚ)
    (model_type : String) (p : FitParams)
    (hb : param_bounds (rest_wavelength * (1 + z)) p)
    (hs : (fit_emission_line_lmfit wavelength flux ivar rest_wavelength line_name z
      window model_type (some p)).success = true) :
    0 ≤ (fit_emission_line_lmfit wavelength flux ivar rest_wavelength line_name z
        window model_type (some p)).amplitude ∧
      (0.5 : ℝ) ≤ (fit_emission_line_lmfit wavelength flux ivar rest_wavelength
        line_name z window model_type (some p)).sigma ∧
      (fit_emission_line_lmfit wavelength flux ivar rest_wavelength line_name z
        window model_type (some p)).sigma ≤ 15 := by
  obtain ⟨-, -, -, -, -, hamp, hs1, hs2⟩ := hb
  by_cases hlen : (window_select (rest_wavelength * (1 + z)) window wavelength
      flux).length < 5
  · exfalso
    unfold fit_emission_line_lmfit at hs
    rw [if_pos hlen] at hs
    simp [emptyWindowResult] at hs
  · unfold fit_emission_line_lmfit
    rw [if_neg hlen]
    refine ⟨?_, ?_, ?_⟩
    · simpa using (Rat.cast_nonneg (K := ℝ)).mpr hamp
    · have : ((0.5 : ℚ) : ℝ) ≤ (p.sigma : ℝ) := Rat.cast_le.mpr hs1
      simpa [show ((0.5 : ℚ) : ℝ) = (0.5 : ℝ) by norm_num] using this
    · have : (p.sigma : ℝ) ≤ ((15 : ℚ) : ℝ) := Rat.cast_le.mpr hs2
      simpa using this

/-- C4 witness: a converged fit on a five-sample window with in-bound solver
parameters has nonnegative amplitude and sigma inside `[0.5, 15]`. -/
theorem C4_postfit_bounds_witness :
    param_bounds (100 * (1 + 0)) pGood ∧
      (fit_emission_line_lmfit [98, 99, 100, 101, 102] [1, 2, 3, 4, 5] none 100
        "Halpha" 0 20 "gaussian" (some pGood)).success = true ∧
      0 ≤ (fit_emission_line_lmfit [98, 99, 100, 101, 102] [1, 2, 3, 4, 5] none 100
        "Halpha" 0 20 "gaussian" (some pGood)).amplitude ∧
      (0.5 : ℝ) ≤ (fit_emission_line_lmfit [98, 99, 100, 101, 102] [1, 2, 3, 4, 5]
        none 100 "Halpha" 0 20 "gaussian" (some pGood)).sigma ∧
      (fit_emission_line_lmfit [98, 99, 100, 101, 102] [1, 2, 3, 4, 5] none 100
        "Halpha" 0 20 "gaussian" (some pGood)).sigma ≤ 15 := by
  have hb : param_bounds (100 * (1 + 0)) pGood := by
    norm_num [param_bounds, pGood]
  have hs : (fit_emission_line_lmfit [98, 99, 100, 101, 102] [1, 2, 3, 4, 5] none 100
      "Halpha" 0 20 "gaussian" (some pGood)).success = true := by
    norm_num [fit_emission_line_lmfit, window_select, List.zip, List.filter]
  obtain ⟨h1, h2, h3⟩ := C4_postfit_bounds [98, 99, 100, 101, 102] [1, 2, 3, 4, 5]
    none 100 "Halpha" 0 20 "gaussian" pGood hb hs
  exact ⟨hb, hs, h1, h2, h3⟩

/-! ### BPT line ratios (`bpt_diagrams.calculate_line_ratios`) -/

/-- Propagated error expression the source attaches to a log10 flux ratio
(`0.434 * np.sqrt((errA/A)**2 + (errB/B)**2)`). -/
noncomputable def log_ratio_err (a a_err b b_err : ℝ) : ℝ :=
  0.434 * Real.sqrt ((a_err / a) ^ 2 + (b_err / b) ^ 2)

/-- The `[NII]/Hα` section of `calculate_line_ratios`: emitted when both lines
are present in the mapping and both fluxes are positive. -/
noncomputable def nii_ha_block (line_results : List (String × LineResult)) :
    List (String × ℝ) :=
  match line_results.lookup "NII_6583", line_results.lookup "Halpha" with
  | some nii, some ha =>
    if 0 < nii.flux ∧ 0 < ha.flux then
      [("NII_Ha", Real.logb 10 (nii.flux / ha.flux)),
       ("NII_Ha_err", log_ratio_err nii.flux nii.flux_err ha.flux ha.flux_err)]
    else []
  | _, _ => []

/-- The `[OIII]/Hβ` section of `calculate_line_ratios`. -/
noncomputable def oiii_hb_block (line_results : List (String × LineResult)) :
    List (String × ℝ) :=
  match line_results.lookup "OIII_5007", line_results.lookup "Hbeta" with
  | some oiii, some hb =>
    if 0 < oiii.flux ∧ 0 < hb.flux then
      [("OIII_Hb", Real.logb 10 (oiii.flux / hb.flux)),
       ("OIII_Hb_err", log_ratio_err oiii.flux oiii.flux_err hb.flux hb.flux_err)]
    else []
  | _, _ => []

/-- The `[SII]/Hα` section of `calculate_line_ratios` (total SII flux, no
error entry in the source). -/
noncomputable def sii_ha_block (line_results : List (String × LineResult)) :
    List (String × ℝ) :=
  match line_results.lookup "SII_6716", line_results.lookup "SII_6731",
      line_results.lookup "Halpha" with
  | some sii_6716, some sii_6731, some ha =>
    if 0 < sii_6716.flux + sii_6731.flux ∧ 0 < ha.flux then
      [("SII_Ha", Real.logb 10 ((sii_6716.flux + sii_6731.flux) / ha.flux))]
    else []
  | _, _, _ => []

/-- The `[OI]/Hα` section of `calculate_line_ratios`. -/
noncomputable def oi_ha_block (line_results : List (String × LineResult)) :
    List (String × ℝ) :=
  match line_results.lookup "OI_6300", line_results.lookup "Halpha" with
  | some oi, some ha =>
    if 0 < oi.flux ∧ 0 < ha.flux then
      [("OI_Ha", Real.logb 10 (oi.flux / ha.flux))]
    else []
  | _, _ => []

/-- BPT line-ratio computation (`bpt_diagrams.calculate_line_ratios`): the
output dictionary accumulates the four sections in source order. -/
noncomputable def calculate_line_ratios (line_results : List (String × LineResult)) :
    List (String × ℝ) :=
  nii_ha_block line_results ++ oiii_hb_block line_results ++
    sii_ha_block line_results ++ oi_ha_block line_results

theorem lookup_append {α β : Type} [BEq α] (k : α) (l1 l2 : List (α × β)) :
    (l1 ++ l2).lookup k = ((l1.lookup k).orElse fun _ => l2.lookup k) := by
  induction l1 with
  | nil => simp [List.lookup]
  | cons a l ih =>
    rcases a with ⟨k1, v1⟩
    by_cases h : k == k1 <;> simp [List.lookup, h, ih]

theorem nii_ha_block_lookup_ne (m : List (String × LineResult)) (k : String)
    (h1 : k ≠ "NII_Ha") (h2 : k ≠ "NII_Ha_err") : (nii_ha_block m).lookup k = none := by
  unfold nii_ha_block
  rcases m.lookup "NII_6583" with _ | nii <;> rcases m.lookup "Halpha" with _ | ha <;>
    simp [List.lookup] <;> aesop

theorem oiii_hb_block_lookup_ne (m : List (String × LineResult)) (k : String)
    (h1 : k ≠ "OIII_Hb") (h2 : k ≠ "OIII_Hb_err") : (oiii_hb_block m).lookup k = none := by
  unfold oiii_hb_block
  rcases m.lookup "OIII_5007" with _ | oiii <;> rcases m.lookup "Hbeta" with _ | hb <;>
    simp [List.lookup] <;> aesop

theorem sii_ha_block_lookup_ne (m : List (String × LineResult)) (k : String)
    (h1 : k ≠ "SII_Ha") : (sii_ha_block m).lookup k = none := by
  unfold sii_ha_block
  rcases m.lookup "SII_6716" with _ | s1 <;> rcases m.lookup "SII_6731" with _ | s2 <;>
    rcases m.lookup "Halpha" with _ | ha <;> simp [List.lookup] <;> aesop

theorem oi_ha_block_lookup_ne (m : List (String × LineResult)) (k : String)
    (h1 : k ≠ "OI_Ha") : (oi_ha_block m).lookup k = none := by
  unfold oi_ha_block
  rcases m.lookup "OI_6300" with _ | oi <;> rcases m.lookup "Halpha" with _ | ha <;>
    simp [List.lookup] <;> aesop

theorem nii_ha_block_isSome (m : List (String × LineResult)) (k : String)
    (hk : k = "NII_Ha" ∨ k = "NII_Ha_err") :
    ((nii_ha_block m).lookup k).isSome ↔
      ∃ nii ha, m.lookup "NII_6583" = some nii ∧ m.lookup "Halpha" = some ha ∧
        0 < nii.flux ∧ 0 < ha.flux := by
  unfold nii_ha_block
  rcases h1 : m.lookup "NII_6583" with _ | nii <;>
    rcases h2 : m.lookup "Halpha" with _ | ha <;> rcases hk with rfl | rfl <;>
    simp [List.lookup] <;>
    by_cases hg : 0 < nii.flux ∧ 0 < ha.flux <;> simp [hg, List.lookup] <;> aesop

theorem oiii_hb_block_isSome (m : List (String × LineResult)) (k : String)
    (hk : k = "OIII_Hb" ∨ k = "OIII_Hb_err") :
    ((oiii_hb_block m).lookup k).isSome ↔
      ∃ oiii hb, m.lookup "OIII_5007" = some oiii ∧ m.lookup "Hbeta" = some hb ∧
        0 < oiii.flux ∧ 0 < hb.flux := by
  unfold oiii_hb_block
  rcases h1 : m.lookup "OIII_5007" with _ | oiii <;>
    rcases h2 : m.lookup "Hbeta" with _ | hb <;> rcases hk with rfl | rfl <;>
    simp [List.lookup] <;>
    by_cases hg : 0 < oiii.flux ∧ 0 < hb.flux <;> simp [hg, List.lookup] <;> aesop

theorem calculate_line_ratios_nii_isSome (m : List (String × LineResult))
    (k : String) (hk : k = "NII_Ha" ∨ k = "NII_Ha_err") :
    ((calculate_line_ratios m).lookup k).isSome ↔
      ∃ nii ha, m.lookup "NII_6583" = some nii ∧ m.lookup "Halpha" = some ha ∧
        0 < nii.flux ∧ 0 < ha.flux := by
  rw [calculate_line_ratios, lookup_append, lookup_append, lookup_append,
    oiii_hb_block_lookup_ne m k (by rcases hk with rfl | rfl <;> simp)
      (by rcases hk with rfl | rfl <;> simp),
    sii_ha_block_lookup_ne m k (by rcases hk with rfl | rfl <;> simp),
    oi_ha_block_lookup_ne m k (by rcases hk with rfl | rfl <;> simp)]
  rw [← nii_ha_block_isSome m k hk]
  rcases (nii_ha_block m).lookup k with _ | v <;> rfl

theorem calculate_line_ratios_oiii_isSome (m : List (String × LineResult))
    (k : String) (hk : k = "OIII_Hb" ∨ k = "OIII_Hb_err") :
    ((calculate_line_ratios m).lookup k).isSome ↔
      ∃ oiii hb, m.lookup "OIII_5007" = some oiii ∧ m.lookup "Hbeta" = some hb ∧
        0 < oiii.flux ∧ 0 < hb.flux := by
  rw [calculate_line_ratios, lookup_append, lookup_append, lookup_append,
    nii_ha_block_lookup_ne m k (by rcases hk with rfl | rfl <;> simp)
      (by rcases hk with rfl | rfl <;> simp),
    sii_ha_block_lookup_ne m k (by rcases hk with rfl | rfl <;> simp),
    oi_ha_block_lookup_ne m k (by rcases hk with rfl | rfl <;> simp)]
  rw [← oiii_hb_block_isSome m k hk]
  rcases (oiii_hb_block m).lookup k with _ | v <;> rfl

/-- C5 counterexample: a mapping whose `NII_6583` entry has `success = false`
but positive flux still yields the `NII_Ha` ratio key — the gating does not
consult the `success` flag. -/
noncomputable def niiFailEntry : LineResult :=
  { line_name := "NII_6583", center := 6585, center_err := 0, amplitude := 1,
    amplitude_err := 0, sigma := 1, sigma_err := 0, flux := 1, flux_err := 0.1,
    ew := 0, ew_err := 0, snr := 0, velocity := 0, velocity_err := 0,
    continuum := 1, success := false }

/-- An `Halpha` entry with a successful fit and positive flux. -/
noncomputable def haGoodEntry : LineResult :=
  { line_name := "Halpha", center := 6564, center_err := 0, amplitude := 2,
    amplitude_err := 0, sigma := 1, sigma_err := 0, flux := 2, flux_err := 0.2,
    ew := 0, ew_err := 0, snr := 0, velocity := 0, velocity_err := 0,
    continuum := 1, success := true }

/-- C5 counterexample: `NII_Ha` (and its error) are present in the output even
though the `NII_6583` fit has `success = false`, refuting the claim that
presence requires `success = true` of both lines. -/
theorem C5_success_gating_counterexample :
    niiFailEntry.success = false ∧ 0 < niiFailEntry.flux ∧
      (((calculate_line_ratios [("NII_6583", niiFailEntry), ("Halpha", haGoodEntry)]).lookup
        "NII_Ha").isSome = true) ∧
      (((calculate_line_ratios [("NII_6583", niiFailEntry), ("Halpha", haGoodEntry)]).lookup
        "NII_Ha_err").isSome = true) := by
  have hl1 : ([("NII_6583", niiFailEntry), ("Halpha", haGoodEntry)]).lookup
      "NII_6583" = some niiFailEntry := by simp [List.lookup]
  have hl2 : ([("NII_6583", niiFailEntry), ("Halpha", haGoodEntry)]).lookup
      "Halpha" = some haGoodEntry := by simp [List.lookup]
  have hcond : ∃ nii ha,
      ([("NII_6583", niiFailEntry), ("Halpha", haGoodEntry)]).lookup "NII_6583" =
          some nii ∧
        ([("NII_6583", niiFailEntry), ("Halpha", haGoodEntry)]).lookup "Halpha" =
          some ha ∧ 0 < nii.flux ∧ 0 < ha.flux :=
    ⟨niiFailEntry, haGoodEntry, hl1, hl2, by norm_num [niiFailEntry],
      by norm_num [haGoodEntry]⟩
  exact ⟨rfl, by norm_num [niiFailEntry],
    (calculate_line_ratios_nii_isSome _ "NII_Ha" (Or.inl rfl)).mpr hcond,
    (calculate_line_ratios_nii_isSome _ "NII_Ha_err" (Or.inr rfl)).mpr hcond⟩

/-- C5 (amended): a ratio key and its error key are present in the output of
`calculate_line_ratios` exactly when both required lines are present in the
input mapping and both have positive flux; the `success` flag is not
consulted (fitter-produced failures carry zero flux), and when the condition
fails the key is absent rather than set to a sentinel. -/
theorem C5_ratio_presence_gating (m : List (String × LineResult)) :
    ((((calculate_line_ratios m).lookup "NII_Ha").isSome ∧
        ((calculate_line_ratios m).lookup "NII_Ha_err").isSome) ↔
      (∃ nii ha, m.lookup "NII_6583" = some nii ∧ m.lookup "Halpha" = some ha ∧
        0 < nii.flux ∧ 0 < ha.flux)) ∧
    ((((calculate_line_ratios m).lookup "OIII_Hb").isSome ∧
        ((calculate_line_ratios m).lookup "OIII_Hb_err").isSome) ↔
      (∃ oiii hb, m.lookup "OIII_5007" = some oiii ∧ m.lookup "Hbeta" = some hb ∧
        0 < oiii.flux ∧ 0 < hb.flux)) := by
  constructor
  · rw [calculate_line_ratios_nii_isSome m "NII_Ha" (Or.inl rfl),
      calculate_line_ratios_nii_isSome m "NII_Ha_err" (Or.inr rfl)]
    exact and_self_iff
  · rw [calculate_line_ratios_oiii_isSome m "OIII_Hb" (Or.inl rfl),
      calculate_line_ratios_oiii_isSome m "OIII_Hb_err" (Or.inr rfl)]
    exact and_self_iff

/-- The natural logarithm of 10 is not `500/217 = 1/0.434`: the source's
error-propagation constant `0.434` is only an approximation of `1/ln 10`. -/
theorem log_ten_ne_inv_constant : Real.log 10 ≠ 500 / 217 := by
  intro h
  have h10 : Real.exp (500 / 217) = 10 := by rw [← h, Real.exp_log]; norm_num
  have hpow : Real.exp 500 = 10 ^ (217 : ℕ) := by
    have h217 : ((217 : ℕ) : ℝ) * (500 / 217) = 500 := by norm_num
    rw [← h217, Real.exp_nat_mul, h10]
  have h2 : Real.exp 500 = Real.exp 1 ^ (500 : ℕ) := by
    have h500 : ((500 : ℕ) : ℝ) * 1 = 500 := by norm_num
    rw [← h500, Real.exp_nat_mul]
  have h3 : (2.7182818283 : ℝ) ^ (500 : ℕ) < Real.exp 1 ^ (500 : ℕ) :=
    pow_lt_pow_left₀ Real.exp_one_gt_d9 (by norm_num) (by norm_num)
  have h4 : (10 : ℝ) ^ (217 : ℕ) < (2.7182818283 : ℝ) ^ (500 : ℕ) := by
    norm_num
  rw [hpow] at h2
  linarith

/-- C6 counterexample: at fluxes `A = B = 1` and errors `3` and `4`, the
error the code computes is `0.434 * 5 = 2.17`, which differs from the claimed
`(1/ln 10) * 5` because `ln 10 ≠ 500/217`. -/
theorem C6_error_constant_counterexample :
    log_ratio_err 1 3 1 4 ≠
      (1 / Real.log 10) * Real.sqrt ((3 / 1) ^ 2 + (4 / 1) ^ 2) := by
  have hs : Real.sqrt ((3 / 1 : ℝ) ^ 2 + (4 / 1) ^ 2) = 5 := by
    rw [show ((3 / 1 : ℝ)) ^ 2 + ((4 / 1 : ℝ)) ^ 2 = 5 ^ 2 by norm_num,
      Real.sqrt_sq (by norm_num : (0 : ℝ) ≤ 5)]
  unfold log_ratio_err
  rw [hs]
  intro h
  have hlpos : 0 < Real.log 10 := Real.log_pos (by norm_num)
  have hlog : Real.log 10 = 500 / 217 := by
    have h5 : (0.434 : ℝ) = 1 / Real.log 10 := by linarith
    field_simp at h5
    linarith
  exact log_ten_ne_inv_constant hlog

/-- C6 (amended): for every mapping whose `NII_6583` and `Halpha` entries are
present with positive fluxes, the propagated error attached to the `NII_Ha`
log10 ratio equals `0.434 * sqrt((errA/A)^2 + (errB/B)^2)` — the source uses
the constant `0.434`, a truncation of `1/ln 10 = 0.43429...`. -/
theorem C6_error_propagation (m : List (String × LineResult)) (nii ha : LineResult)
    (h1 : m.lookup "NII_6583" = some nii) (h2 : m.lookup "Halpha" = some ha)
    (hf1 : 0 < nii.flux) (hf2 : 0 < ha.flux) :
    (calculate_line_ratios m).lookup "NII_Ha_err" =
      some (0.434 *
        Real.sqrt ((nii.flux_err / nii.flux) ^ 2 + (ha.flux_err / ha.flux) ^ 2)) := by
  rw [calculate_line_ratios, lookup_append, lookup_append, lookup_append,
    oiii_hb_block_lookup_ne m _ (by simp) (by simp),
    sii_ha_block_lookup_ne m _ (by simp),
    oi_ha_block_lookup_ne m _ (by simp)]
  have hb : (nii_ha_block m).lookup "NII_Ha_err" =
      some (log_ratio_err nii.flux nii.flux_err ha.flux ha.flux_err) := by
    unfold nii_ha_block
    rw [h1, h2]
    dsimp only
    rw [if_pos ⟨hf1, hf2⟩]
    simp [List.lookup]
  rw [hb]
  simp [log_ratio_err, Option.orElse]

/-- An `NII_6583` entry with flux 1 and flux error 3. -/
noncomputable def niiC6Entry : LineResult :=
  { line_name := "NII_6583", center := 6585, center_err := 0, amplitude := 1,
    amplitude_err := 0, sigma := 1, sigma_err := 0, flux := 1, flux_err := 3,
    ew := 0, ew_err := 0, snr := 0, velocity := 0, velocity_err := 0,
    continuum := 1, success := true }

/-- An `Halpha` entry with flux 1 and flux error 4. -/
noncomputable def haC6Entry : LineResult :=
  { line_name := "Halpha", center := 6564, center_err := 0, amplitude := 1,
    amplitude_err := 0, sigma := 1, sigma_err := 0, flux := 1, flux_err := 4,
    ew := 0, ew_err := 0, snr := 0, velocity := 0, velocity_err := 0,
    continuum := 1, success := true }

/-- C6 witness: a concrete mapping with fluxes `1, 1` and errors `3, 4`
receives the error value `0.434 * 5 = 2.17`. -/
theorem C6_error_propagation_witness :
    (calculate_line_ratios [("NII_6583", niiC6Entry), ("Halpha", haC6Entry)]).lookup
        "NII_Ha_err" = some (2.17 : ℝ) := by
  have h1 : ([("NII_6583", niiC6Entry), ("Halpha", haC6Entry)]).lookup "NII_6583" =
      some niiC6Entry := by simp [List.lookup]
  have h2 : ([("NII_6583", niiC6Entry), ("Halpha", haC6Entry)]).lookup "Halpha" =
      some haC6Entry := by simp [List.lookup]
  rw [C6_error_propagation _ niiC6Entry haC6Entry h1 h2
    (by norm_num [niiC6Entry]) (by norm_num [haC6Entry])]
  have hs : Real.sqrt ((niiC6Entry.flux_err / niiC6Entry.flux) ^ 2 +
      (haC6Entry.flux_err / haC6Entry.flux) ^ 2) = 5 := by
    rw [show (niiC6Entry.flux_err / niiC6Entry.flux) ^ 2 +
        (haC6Entry.flux_err / haC6Entry.flux) ^ 2 = (5 : ℝ) ^ 2 by
      norm_num [niiC6Entry, haC6Entry],
      Real.sqrt_sq (by norm_num : (0 : ℝ) ≤ 5)]
  rw [hs]
  norm_num

/-- C9: the propagated log-ratio error is monotonically non-decreasing in each
input flux error, for fixed positive fluxes and non-negative errors. -/
theorem C9_error_monotonicity (A B eA eA' eB eB' : ℝ) (hA : 0 < A) (hB : 0 < B)
    (heA : 0 ≤ eA) (heA' : eA ≤ eA') (heB : 0 ≤ eB) (heB' : eB ≤ eB') :
    log_ratio_err A eA B eB ≤ log_ratio_err A eA' B eB ∧
      log_ratio_err A eA B eB ≤ log_ratio_err A eA B eB' := by
  unfold log_ratio_err
  constructor <;>
  · apply mul_le_mul_of_nonneg_left _ (by norm_num : (0 : ℝ) ≤ 0.434)
    apply Real.sqrt_le_sqrt
    gcongr

/-- C9 witness: with unit fluxes, raising the first error from 1 to 2 or the
second from 1 to 3 does not decrease the propagated error. -/
theorem C9_error_monotonicity_witness :
    log_ratio_err 1 1 1 1 ≤ log_ratio_err 1 2 1 1 ∧
      log_ratio_err 1 1 1 1 ≤ log_ratio_err 1 1 1 3 :=
  C9_error_monotonicity 1 1 1 2 1 3 (by norm_num) (by norm_num) (by norm_num)
    (by norm_num) (by norm_num) (by norm_num)

/-! ### Derived physical properties (`utils/galaxy_properties.py`) -/

/-- Return value of `galaxy_properties.estimate_sfr` (the source's result
dictionary with keys `sfr`, `sfr_err`, `L_ha`). -/
structure SFRResult where
  sfr : ℝ
  sfr_err : ℝ
  L_ha : ℝ

/-- Star-formation-rate estimator (`galaxy_properties.estimate_sfr`). The
`z > 0` branch queries astropy's flat ΛCDM luminosity distance, an external
collaborator abstracted as the `dL_cosmo` argument; at `z = 0` the source uses
the literal constant `3.086e24` cm (its comment calls this 10 pc, but the
value is 1 Mpc — 10 pc is `3.086e19` cm). -/
noncomputable def estimate_sfr (dL_cosmo : ℚ → ℝ) (ha_flux : ℚ)
    (ha_flux_err : Option ℚ) (z : ℚ) (method : String) : SFRResult :=
  let d_L : ℝ := if 0 < z then dL_cosmo z else (3.086e24 : ℝ)
  let L_ha : ℝ := (ha_flux : ℝ) * 4 * Real.pi * d_L ^ 2
  let sfr : ℝ :=
    if method = "kennicutt98" then 7.9e-42 * L_ha
    else if method = "kennicutt12" then 5.5e-42 * L_ha
    else 7.9e-42 * L_ha
  let sfr_err : ℝ :=
    match ha_flux_err with
    | some e => if 0 < ha_flux then sfr * ((e / ha_flux : ℚ) : ℝ) else 0
    | none => 0
  { sfr := sfr, sfr_err := sfr_err, L_ha := L_ha }

/-- C7: at `z = 0` the luminosity used is `L = F * 4π * (3.086e24)^2` with the
two calibrations `7.9e-42` and `5.5e-42` — but the distance constant
`3.086e24` cm is 1 Mpc, not the 10 pc (`3.086e19` cm) stated by the claim and
by the source's own inline comment; the SFR at `z = 0` is inflated by
`10^10`. -/
theorem C7_sfr_distance_bug (dL_cosmo : ℚ → ℝ) :
    (estimate_sfr dL_cosmo 1 none 0 "kennicutt98").L_ha =
        4 * Real.pi * (3.086e24 : ℝ) ^ 2 ∧
      (estimate_sfr dL_cosmo 1 none 0 "kennicutt98").sfr =
        7.9e-42 * (4 * Real.pi * (3.086e24 : ℝ) ^ 2) ∧
      (estimate_sfr dL_cosmo 1 none 0 "kennicutt12").sfr =
        5.5e-42 * (4 * Real.pi * (3.086e24 : ℝ) ^ 2) ∧
      (3.086e24 : ℝ) ≠ 3.086e19 := by
  refine ⟨?_, ?_, ?_, by norm_num⟩ <;>
    simp [estimate_sfr] <;> ring

/-- Return value of `galaxy_properties.calculate_metallicity` (the source's
result dictionary with the metallicity value and the calibration tag). -/
structure MetallicityResult where
  value : ℝ
  method : String

/-- Gas-phase metallicity estimator
(`galaxy_properties.calculate_metallicity`): the `pp04_o3n2` path needs all
four of `OIII_5007`, `Hbeta`, `NII_6583`, `Halpha` present with positive
fluxes; the `pp04_n2` path needs `NII_6583` and `Halpha`; every fall-through
returns `none`. -/
noncomputable def calculate_metallicity (line_results : List (String × LineResult))
    (method : String) : Option MetallicityResult :=
  if method = "pp04_o3n2" then
    match line_results.lookup "OIII_5007", line_results.lookup "Hbeta",
        line_results.lookup "NII_6583", line_results.lookup "Halpha" with
    | some oiii, some hb, some nii, some ha =>
      if 0 < oiii.flux ∧ 0 < hb.flux ∧ 0 < nii.flux ∧ 0 < ha.flux then
        some { value := 8.73 -
                 0.32 * Real.logb 10 ((oiii.flux / hb.flux) / (nii.flux / ha.flux)),
               method := "O3N2" }
      else none
    | _, _, _, _ => none
  else if method = "pp04_n2" then
    match line_results.lookup "NII_6583", line_results.lookup "Halpha" with
    | some nii, some ha =>
      if 0 < nii.flux ∧ 0 < ha.flux then
        some { value := 8.90 + 0.57 * Real.logb 10 (nii.flux / ha.flux),
               method := "N2" }
      else none
    | _, _ => none
  else none

/-- C8: the O3N2 method returns
`12+log(O/H) = 8.73 - 0.32 * log10((OIII/Hβ)/(NII/Hα))` whenever all four
required lines are present with positive flux, and returns `none` (no default
numeric value) whenever any required line is absent or has non-positive
flux. -/
theorem C8_metallicity_o3n2 (m : List (String × LineResult)) :
    (∀ oiii hb nii ha : LineResult,
      m.lookup "OIII_5007" = some oiii → m.lookup "Hbeta" = some hb →
      m.lookup "NII_6583" = some nii → m.lookup "Halpha" = some ha →
      0 < oiii.flux → 0 < hb.flux → 0 < nii.flux → 0 < ha.flux →
      calculate_metallicity m "pp04_o3n2" =
        some { value := 8.73 -
                 0.32 * Real.logb 10 ((oiii.flux / hb.flux) / (nii.flux / ha.flux)),
               method := "O3N2" }) ∧
    ((¬ ∃ oiii hb nii ha : LineResult,
        m.lookup "OIII_5007" = some oiii ∧ m.lookup "Hbeta" = some hb ∧
        m.lookup "NII_6583" = some nii ∧ m.lookup "Halpha" = some ha ∧
        0 < oiii.flux ∧ 0 < hb.flux ∧ 0 < nii.flux ∧ 0 < ha.flux) →
      calculate_metallicity m "pp04_o3n2" = none) := by
  constructor
  · intro oiii hb nii ha h1 h2 h3 h4 hf1 hf2 hf3 hf4
    unfold calculate_metallicity
    rw [if_pos rfl, h1, h2, h3, h4]
    dsimp only
    rw [if_pos ⟨hf1, hf2, hf3, hf4⟩]
  · intro hn
    unfold calculate_metallicity
    rw [if_pos rfl]
    rcases h1 : m.lookup "OIII_5007" with _ | oiii <;>
      rcases h2 : m.lookup "Hbeta" with _ | hb <;>
      rcases h3 : m.lookup "NII_6583" with _ | nii <;>
      rcases h4 : m.lookup "Halpha" with _ | ha <;> dsimp only <;> try rfl
    split_ifs with hg
    · exact absurd ⟨oiii, hb, nii, ha, h1, h2, h3, h4, hg.1, hg.2.1, hg.2.2.1,
        hg.2.2.2⟩ hn
    · rfl

/-- An `OIII_5007` entry with flux 10. -/
noncomputable def oiiiC8Entry : LineResult :=
  { line_name := "OIII_5007", center := 5008, center_err := 0, amplitude := 1,
    amplitude_err := 0, sigma := 1, sigma_err := 0, flux := 10, flux_err := 1,
    ew := 0, ew_err := 0, snr := 0, velocity := 0, velocity_err := 0,
    continuum := 1, success := true }

/-- An `Hbeta` entry with flux 1. -/
noncomputable def hbC8Entry : LineResult :=
  { line_name := "Hbeta", center := 4862, center_err := 0, amplitude := 1,
    amplitude_err := 0, sigma := 1, sigma_err := 0, flux := 1, flux_err := 0.1,
    ew := 0, ew_err := 0, snr := 0, velocity := 0, velocity_err := 0,
    continuum := 1, success := true }

/-- C8 witness: with fluxes `OIII = 10`, `Hβ = 1`, `NII = 1`, `Hα = 1` the
O3N2 index is `log10(10) = 1`, so the result is exactly
`8.73 - 0.32 = 8.41`; and on the empty mapping the method returns `none`. -/
theorem C8_metallicity_o3n2_witness :
    calculate_metallicity
        [("OIII_5007", oiiiC8Entry), ("Hbeta", hbC8Entry),
         ("NII_6583", niiC6Entry), ("Halpha", haC6Entry)] "pp04_o3n2" =
      some { value := (8.41 : ℝ), method := "O3N2" } ∧
    calculate_metallicity [] "pp04_o3n2" = none := by
  constructor
  · have h := (C8_metallicity_o3n2
      [("OIII_5007", oiiiC8Entry), ("Hbeta", hbC8Entry),
       ("NII_6583", niiC6Entry), ("Halpha", haC6Entry)]).1 oiiiC8Entry hbC8Entry
      niiC6Entry haC6Entry (by simp [List.lookup]) (by simp [List.lookup])
      (by simp [List.lookup]) (by simp [List.lookup])
      (by norm_num [oiiiC8Entry]) (by norm_num [hbC8Entry])
      (by norm_num [niiC6Entry]) (by norm_num [haC6Entry])
    rw [h]
    have ht : ((oiiiC8Entry.flux / hbC8Entry.flux) /
        (niiC6Entry.flux / haC6Entry.flux)) = (10 : ℝ) := by
      norm_num [oiiiC8Entry, hbC8Entry, niiC6Entry, haC6Entry]
    rw [ht, Real.logb_self_eq_one (by norm_num : (1 : ℝ) < 10)]
    norm_num
  · apply (C8_metallicity_o3n2 []).2
    rintro ⟨o, b, n, a, h, -⟩
    simp [List.lookup] at h

/-! ### Rest/observed frame conversion (`utils/spectral_utils.py`) -/

/-- Frame conversion of a spectrum (`spectral_utils.redshift_spectrum`):
with `to_rest = true`, wavelength is divided and flux multiplied by `1 + z`;
with `to_rest = false` the opposite. -/
def redshift_spectrum (wavelength flux : List ℚ) (z : ℚ) (to_rest : Bool) :
    List ℚ × List ℚ :=
  if to_rest then
    (wavelength.map (fun w => w / (1 + z)), flux.map (fun f => f * (1 + z)))
  else
    (wavelength.map (fun w => w * (1 + z)), flux.map (fun f => f / (1 + z)))

/-- C10: for every wavelength array, flux array and redshift `z ≥ 0`,
converting to the rest frame and back to the observed frame with
`redshift_spectrum` is the identity in exact arithmetic. -/
theorem C10_redshift_roundtrip (wavelength flux : List ℚ) (z : ℚ) (hz : 0 ≤ z) :
    redshift_spectrum (redshift_spectrum wavelength flux z true).1
      (redshift_spectrum wavelength flux z true).2 z false = (wavelength, flux) := by
  have hz1 : (1 : ℚ) + z ≠ 0 := by positivity
  simp only [redshift_spectrum, if_pos, if_neg, Bool.false_eq_true, not_false_iff,
    ite_true, ite_false, List.map_map, Prod.mk.injEq]
  constructor
  · rw [show ((fun w => w * (1 + z)) ∘ fun w => w / (1 + z)) = id by
      funext x; simp [Function.comp, div_mul_cancel₀ x hz1]]
    exact List.map_id wavelength
  · rw [show ((fun f => f / (1 + z)) ∘ fun f => f * (1 + z)) = id by
      funext x; simp [Function.comp, mul_div_cancel_right₀ x hz1]]
    exact List.map_id flux

/-- C10 witness: a concrete two-sample spectrum at `z = 1` round-trips to
itself. -/
theorem C10_redshift_roundtrip_witness :
    (0 : ℚ) ≤ 1 ∧
      redshift_spectrum (redshift_spectrum [4000, 5000] [2, 3] 1 true).1
        (redshift_spectrum [4000, 5000] [2, 3] 1 true).2 1 false = ([4000, 5000], [2, 3]) :=
  ⟨by norm_num, C10_redshift_roundtrip [4000, 5000] [2, 3] 1 (by norm_num)⟩

end GalaxyViz
